import Mathlib

/-!
Verification of the heuristic scoring engine of the skincare backend
(`analyze_skin_progress`, `generate_ai_recommendations`,
`predict_future_results`, `get_prediction_description`).

The embedding mirrors the source: numeric arithmetic is modelled in `ℚ`,
Python's stable `sorted` is modelled by stable insertion sorts, Python
`round` (banker's rounding) by `pyRound`, and dictionary fields that may be
absent by `Option` fields read through `Option.getD` (Python's `.get` with a
default).
-/

/-- Photo metadata is opaque to the scoring core; only the count matters. -/
abbrev Photo := ℕ

/-- A daily check-in record, as stored by the web layer. -/
structure CheckIn where
  skin_condition : ℚ
  stress_level : ℚ
  sleep_hours : ℚ
  created_at : ℕ
deriving DecidableEq

/-- Stable insertion (by `created_at`) used to model Python's stable `sorted`. -/
def insertByCreated (x : CheckIn) : List CheckIn → List CheckIn
  | [] => [x]
  | y :: ys =>
    if x.created_at ≤ y.created_at then x :: y :: ys else y :: insertByCreated x ys

/-- `sorted(checkins, key=lambda x: x["created_at"])`: stable ascending sort. -/
def sortByCreated (l : List CheckIn) : List CheckIn := l.foldr insertByCreated []

/-- `sorted(checkins, ...)[-7:]`: the last (up to) 7 check-ins. -/
def recentWindow (checkins : List CheckIn) : List CheckIn :=
  (sortByCreated checkins).drop ((sortByCreated checkins).length - 7)

/-- `sorted(checkins, ...)[:-7] if len(checkins) > 7 else []`. -/
def priorWindow (checkins : List CheckIn) : List CheckIn :=
  if 7 < checkins.length then
    (sortByCreated checkins).take ((sortByCreated checkins).length - 7)
  else []

/-- Mean of `skin_condition` over a window (used on nonempty windows only). -/
def avgCond (l : List CheckIn) : ℚ :=
  (l.map (fun c => c.skin_condition)).sum / l.length

/-- Python's `round` to an integer: round half to even (banker's rounding). -/
def pyRoundInt (q : ℚ) : ℤ :=
  if q - ⌊q⌋ < 1/2 then ⌊q⌋
  else if 1/2 < q - ⌊q⌋ then ⌊q⌋ + 1
  else if ⌊q⌋ % 2 = 0 then ⌊q⌋ else ⌊q⌋ + 1

/-- Python's `round(q, d)`: round to `d` decimal places, half to even. -/
def pyRound (d : ℕ) (q : ℚ) : ℚ := (pyRoundInt (q * 10 ^ d) : ℚ) / 10 ^ d

/-- Result dictionary of `analyze_skin_progress`; fields absent from the
sentinel results are `Option`s. -/
structure ProgressResult where
  trend : String
  confidence : ℤ
  improvement_score : Option ℚ
  recent_average : Option ℚ
  previous_average : Option ℚ
  total_data_points : Option ℕ
  photo_count : Option ℕ
deriving DecidableEq

/-- `analyze_skin_progress(checkins, photos)` from `src/main.py`. -/
def analyze_skin_progress (checkins : List CheckIn) (photos : List Photo) :
    ProgressResult :=
  if checkins = [] then ⟨"insufficient_data", 0, none, none, none, none, none⟩
  else if priorWindow checkins = [] then
    ⟨"not_enough_data", 30, none, none, none, none, none⟩
  else if 1 < avgCond (recentWindow checkins) - avgCond (priorWindow checkins) then
    ⟨"significant_improvement", min 90 (70 + (checkins.length : ℤ) * 2),
      some (pyRound 2 (avgCond (recentWindow checkins) - avgCond (priorWindow checkins))),
      some (pyRound 1 (avgCond (recentWindow checkins))),
      some (pyRound 1 (avgCond (priorWindow checkins))),
      some checkins.length, some photos.length⟩
  else if 3/10 < avgCond (recentWindow checkins) - avgCond (priorWindow checkins) then
    ⟨"moderate_improvement", min 80 (60 + (checkins.length : ℤ) * 2),
      some (pyRound 2 (avgCond (recentWindow checkins) - avgCond (priorWindow checkins))),
      some (pyRound 1 (avgCond (recentWindow checkins))),
      some (pyRound 1 (avgCond (priorWindow checkins))),
      some checkins.length, some photos.length⟩
  else if -(3/10) < avgCond (recentWindow checkins) - avgCond (priorWindow checkins) then
    ⟨"stable", min 75 (50 + (checkins.length : ℤ) * 2),
      some (pyRound 2 (avgCond (recentWindow checkins) - avgCond (priorWindow checkins))),
      some (pyRound 1 (avgCond (recentWindow checkins))),
      some (pyRound 1 (avgCond (priorWindow checkins))),
      some checkins.length, some photos.length⟩
  else
    ⟨"declining", min 85 (65 + (checkins.length : ℤ) * 2),
      some (pyRound 2 (avgCond (recentWindow checkins) - avgCond (priorWindow checkins))),
      some (pyRound 1 (avgCond (recentWindow checkins))),
      some (pyRound 1 (avgCond (priorWindow checkins))),
      some checkins.length, some photos.length⟩

/-- A catalog (or wellness) product; `skin_types`, `concerns` and
`description` are keys that only some products carry. -/
structure Product where
  name : String
  price : ℚ
  rating : ℚ
  skin_types : Option (List String)
  concerns : Option (List String)
  description : Option String
deriving DecidableEq

/-- The `"nettoyants"` catalog entry of `products_db`. -/
def nettoyantsProducts : List Product :=
  [⟨"CeraVe Gel Moussant", 12.90, 4.6, some ["normale", "mixte", "grasse"], none, none⟩,
   ⟨"La Roche-Posay Toleriane", 15.50, 4.7, some ["sensible", "sèche"], none, none⟩,
   ⟨"Neutrogena Ultra Gentle", 8.99, 4.3, some ["sensible", "normale"], none, none⟩]

/-- The `"serums"` catalog entry of `products_db`. -/
def serumsProducts : List Product :=
  [⟨"The Ordinary Niacinamide 10%", 7.50, 4.4, none, some ["acné", "pores dilatés"], none⟩,
   ⟨"Vichy Mineral 89", 24.90, 4.5, none, some ["sécheresse", "sensibilité"], none⟩,
   ⟨"Paula\x27s Choice BHA 2%", 33.00, 4.7, none, some ["acné", "points noirs"], none⟩]

/-- The `"hydratants"` catalog entry of `products_db`. -/
def hydratantsProducts : List Product :=
  [⟨"Cetaphil Daily Moisturizer", 11.90, 4.4, some ["normale", "sèche"], none, none⟩,
   ⟨"Effaclar Mat La Roche-Posay", 16.90, 4.3, some ["grasse", "mixte"], none, none⟩,
   ⟨"Toleriane Ultra Fluide", 18.50, 4.6, some ["sensible"], none, none⟩]

/-- The fixed product catalog `products_db`, in insertion (iteration) order. -/
def products_db : List (String × List Product) :=
  [("nettoyants", nettoyantsProducts),
   ("serums", serumsProducts),
   ("hydratants", hydratantsProducts)]

/-- Distinct profile concerns also addressed by the product:
`set(concerns) & set(product["concerns"])` (only cardinality and membership
of this set are ever observed by the claims). -/
def matchedConcerns (concerns : List String) (pcs : List String) : List String :=
  concerns.dedup.filter (fun c => decide (c ∈ pcs))

/-- `+40` when the product lists the profile's skin type. -/
def skinTypeBonus (st : String) (p : Product) : ℚ :=
  match p.skin_types with
  | some ts => if st ∈ ts then 40 else 0
  | none => 0

/-- `+30` per concern in the intersection of profile and product concerns. -/
def concernBonus (cs : List String) (p : Product) : ℚ :=
  match p.concerns with
  | some pcs => ((matchedConcerns cs pcs).length : ℚ) * 30
  | none => 0

/-- `+10` if price < 15, `+5` if price < 25, else `+0`. -/
def priceBonus (p : Product) : ℚ :=
  if p.price < 15 then 10 else if p.price < 25 then 5 else 0

/-- The additive per-product score of the recommendation engine. -/
def scoreProduct (st : String) (cs : List String) (p : Product) : ℚ :=
  skinTypeBonus st p + concernBonus cs p + p.rating * 5 + priceBonus p

/-- One step of the best-product loop: replace the running best only on a
strictly greater score (`if score > best_score`). -/
def stepBest (f : Product → ℚ) (acc : Option Product × ℚ) (p : Product) :
    Option Product × ℚ :=
  if acc.2 < f p then (some p, f p) else acc

/-- The best-product loop, starting from `best_product = None, best_score = 0`. -/
def bestFold (f : Product → ℚ) (ps : List Product) : Option Product × ℚ :=
  ps.foldl (stepBest f) (none, 0)

/-- A recommendation entry as emitted by `generate_ai_recommendations`. -/
structure Recommendation where
  category : String
  product : Product
  match_score : ℤ
  reasons : List String
  urgency : String
deriving DecidableEq

/-- Python `str.title()` restricted to the single lowercase words used as
catalog keys: capitalize the first character, lowercase the rest. -/
def pyTitle (s : String) : String :=
  match s.data with
  | [] => ""
  | c :: cs => String.mk (c.toUpper :: cs.map Char.toLower)

/-- The human-readable `reasons` list for a selected product. -/
def mkReasons (st : String) (cs : List String) (b : Product) : List String :=
  (match b.skin_types with
   | some ts => if st ∈ ts then ["Adapté aux peaux " ++ st ++ "s"] else []
   | none => []) ++
  (match b.concerns with
   | some pcs =>
     if matchedConcerns cs pcs = [] then []
     else ["Traite: " ++ String.intercalate ", " (matchedConcerns cs pcs)]
   | none => [])

/-- `"high" if score > 80 else "medium" if score > 60 else "low"`. -/
def urgencyOf (s : ℚ) : String :=
  if 80 < s then "high" else if 60 < s then "medium" else "low"

/-- The per-category recommendation entry (if a best product was selected). -/
def mkCatEntry (st : String) (cs : List String) (cat : String)
    (ps : List Product) : Option Recommendation :=
  match bestFold (scoreProduct st cs) ps with
  | (some b, s) =>
    some ⟨pyTitle cat, b, min 100 ⌊s⌋, mkReasons st cs b, urgencyOf s⟩
  | (none, _) => none

/-- All per-category entries, in catalog order. -/
def categoryRecs (st : String) (cs : List String) : List Recommendation :=
  products_db.filterMap (fun cp => mkCatEntry st cs cp.1 cp.2)

/-- The fixed wellness recommendation appended when `stress_level > 7`. -/
def wellnessRec : Recommendation :=
  ⟨"Bien-être",
   ⟨"Masque Apaisant Avène", 13.90, 4.5, none, none,
    some "Masque anti-stress pour peaux sensibilisées."⟩,
   85,
   ["Niveau de stress élevé détecté", "Aide à calmer les inflammations"],
   "medium"⟩

/-- A stored skin profile; the engine reads `skin_type`, `main_concerns` and
`stress_level` through `.get` with defaults `"normale"`, `[]`, `5`. -/
structure Profile where
  user_id : String
  skin_type : Option String
  main_concerns : Option (List String)
  stress_level : Option ℤ
  created_at : String
deriving DecidableEq

/-- The recommendation list in generation order: category entries in catalog
order, then the wellness entry when `stress_level > 7`. -/
def preRecs (profile : Profile) : List Recommendation :=
  categoryRecs (profile.skin_type.getD "normale") (profile.main_concerns.getD []) ++
    (if 7 < profile.stress_level.getD 5 then [wellnessRec] else [])

/-- Stable insertion by descending `match_score` (ties keep the left element
first), modelling Python's stable `sorted(..., reverse=True)`. -/
def insertDesc (x : Recommendation) : List Recommendation → List Recommendation
  | [] => [x]
  | y :: ys =>
    if y.match_score ≤ x.match_score then x :: y :: ys else y :: insertDesc x ys

/-- `sorted(recommendations, key=lambda x: x["match_score"], reverse=True)`. -/
def sortRecsDesc (l : List Recommendation) : List Recommendation :=
  l.foldr insertDesc []

/-- `generate_ai_recommendations(profile, checkins, photos)` from
`src/main.py` (the body never reads `checkins` or `photos`). -/
def generate_ai_recommendations (profile : Profile) (_checkins : List CheckIn)
    (_photos : List Photo) : List Recommendation :=
  sortRecsDesc (preRecs profile)

/-- The descending-score ordering of recommendation entries. -/
def scoreGE (a b : Recommendation) : Prop := b.match_score ≤ a.match_score

/-- `out` contains the per-category entry for `cat`: the entry is built from a
product `b` of `prods` whose score is maximal, every product strictly before
`b` in catalog order scores strictly less (first product wins ties), and the
entry carries `match_score = min(100, floor(score))` and the urgency bucket
of the raw score. -/
def selectsBest (st : String) (cs : List String) (cat : String)
    (prods : List Product) (out : List Recommendation) : Prop :=
  ∃ l1 b l2, prods = l1 ++ b :: l2 ∧
    (∀ q ∈ prods, scoreProduct st cs q ≤ scoreProduct st cs b) ∧
    (∀ q ∈ l1, scoreProduct st cs q < scoreProduct st cs b) ∧
    (⟨pyTitle cat, b, min 100 ⌊scoreProduct st cs b⌋, mkReasons st cs b,
      urgencyOf (scoreProduct st cs b)⟩ : Recommendation) ∈ out

/-- One horizon entry of the predictor's output. -/
structure PredEntry where
  predicted_score : ℚ
  confidence : ℤ
  description : String
deriving DecidableEq

/-- Result dictionary of `predict_future_results`; the insufficient-data
result carries only `message`. -/
structure PredictResult where
  message : Option String
  current_score : Option ℚ
  trend_direction : Option String
  predictions : Option (List (ℕ × PredEntry))
  reliability : Option String
deriving DecidableEq

/-- `max(1, min(10, q))`. -/
def clamp110 (q : ℚ) : ℚ := max 1 (min 10 q)

/-- `get_prediction_description(score)` from `src/main.py`. -/
def get_prediction_description (score : ℚ) : String :=
  if 8 ≤ score then "Peau excellente, très peu d\x27imperfections"
  else if 7 ≤ score then "Peau en bonne santé avec quelques améliorations possibles"
  else if 6 ≤ score then "Peau correcte avec des problèmes mineurs"
  else if 5 ≤ score then "Peau moyenne nécessitant des soins réguliers"
  else if 4 ≤ score then "Peau problématique nécessitant une attention particulière"
  else "Peau nécessitant des soins intensifs"

/-- The predictor's per-horizon entry: clamp, round to 1 decimal, degrade
confidence by 5 per week (floored at 30), and attach the description of the
clamped score. -/
def predEntryFor (baseline trend : ℚ) (conf : ℤ) (weeks : ℕ) : PredEntry :=
  ⟨pyRound 1 (clamp110 (baseline + trend * (weeks : ℚ) * (3/10))),
   max 30 (conf - (weeks : ℤ) * 5),
   get_prediction_description (clamp110 (baseline + trend * (weeks : ℚ) * (3/10)))⟩

/-- The four-horizon prediction table built from an analyzer result. -/
def predictionTable (pr : ProgressResult) : List (ℕ × PredEntry) :=
  [2, 4, 8, 12].map (fun w =>
    (w, predEntryFor (pr.recent_average.getD 5) (pr.improvement_score.getD 0)
      pr.confidence w))

/-- `predict_future_results(profile, checkins)` from `src/main.py` (the body
never reads `profile`). -/
def predict_future_results (_profile : Profile) (checkins : List CheckIn) :
    PredictResult :=
  if checkins.length < 3 then
    ⟨some "Pas assez de données pour une prédiction fiable", none, none, none, none⟩
  else
    ⟨none,
     some ((analyze_skin_progress checkins []).recent_average.getD 5),
     some (if 0 < (analyze_skin_progress checkins []).improvement_score.getD 0 then
         "amélioration"
       else if -(3/10) < (analyze_skin_progress checkins []).improvement_score.getD 0 then
         "stable"
       else "déclin"),
     some (predictionTable (analyze_skin_progress checkins [])),
     some (if 10 < checkins.length then "high"
       else if 5 < checkins.length then "medium" else "low")⟩

/-- A profile with default-looking fields, used to instantiate theorems whose
conclusion does not depend on the profile. -/
def defaultProfile : Profile := ⟨"user_1", some "normale", some [], some 5, "t0"⟩

/-- The concrete profile of the spec's test property: oily skin, acne concern,
stress level 9. -/
def grasseProfile : Profile := ⟨"user_1", some "grasse", some ["acné"], some 9, "t0"⟩

/-- Ten check-ins: three prior at condition 5, seven recent at 6.5. -/
def histC2w : List CheckIn :=
  [⟨5, 5, 8, 0⟩, ⟨5, 5, 8, 1⟩, ⟨5, 5, 8, 2⟩, ⟨13/2, 5, 8, 3⟩, ⟨13/2, 5, 8, 4⟩,
   ⟨13/2, 5, 8, 5⟩, ⟨13/2, 5, 8, 6⟩, ⟨13/2, 5, 8, 7⟩, ⟨13/2, 5, 8, 8⟩,
   ⟨13/2, 5, 8, 9⟩]

/-- Four check-ins, enough for predictions. -/
def histC3w : List CheckIn := [⟨5, 5, 8, 0⟩, ⟨6, 5, 8, 1⟩, ⟨7, 5, 8, 2⟩, ⟨6, 5, 8, 3⟩]

/-- Eight check-ins whose improvement rate is 1/7 (rounded: 0.14), strictly
between 0 and 0.3. -/
def histC4x : List CheckIn :=
  [⟨5, 5, 8, 0⟩, ⟨5, 5, 8, 1⟩, ⟨5, 5, 8, 2⟩, ⟨5, 5, 8, 3⟩, ⟨5, 5, 8, 4⟩,
   ⟨5, 5, 8, 5⟩, ⟨5, 5, 8, 6⟩, ⟨6, 5, 8, 7⟩]

/-- Two check-ins (short history). -/
def histC7w : List CheckIn := [⟨4, 5, 8, 0⟩, ⟨6, 5, 8, 1⟩]

/-- A single check-in, used to vary the history input. -/
def histC9c : List CheckIn := [⟨5, 5, 8, 0⟩]

/-- Three check-ins (at least 3, at most 7). -/
def histC10w : List CheckIn := [⟨5, 5, 8, 0⟩, ⟨6, 5, 8, 1⟩, ⟨7, 5, 8, 2⟩]

/-- First of two profiles agreeing on the fields the engine reads. -/
def profC9a : Profile := ⟨"user_1", some "mixte", some ["acné"], some 4, "a"⟩

/-- Second of two profiles agreeing on the fields the engine reads. -/
def profC9b : Profile := ⟨"user_2", some "mixte", some ["acné"], some 4, "b"⟩

theorem length_insertByCreated (x : CheckIn) (l : List CheckIn) :
    (insertByCreated x l).length = l.length + 1 := by
  induction l with
  | nil => rfl
  | cons y ys ih =>
    unfold insertByCreated
    split
    · rfl
    · simp [List.length_cons, ih]

theorem length_sortByCreated (l : List CheckIn) :
    (sortByCreated l).length = l.length := by
  induction l with
  | nil => rfl
  | cons x xs ih =>
    have h1 : sortByCreated (x :: xs) = insertByCreated x (sortByCreated xs) := rfl
    rw [h1, length_insertByCreated, ih, List.length_cons]

theorem priorWindow_ne_nil (checkins : List CheckIn) (h : 7 < checkins.length) :
    priorWindow checkins ≠ [] := by
  unfold priorWindow
  rw [if_pos h]
  intro hEq
  have h2 := congrArg List.length hEq
  rw [List.length_take, length_sortByCreated] at h2
  simp at h2
  omega

theorem analyze_sentinel (checkins : List CheckIn) (photos : List Photo)
    (hne : checkins ≠ []) (h7 : checkins.length ≤ 7) :
    analyze_skin_progress checkins photos =
      ⟨"not_enough_data", 30, none, none, none, none, none⟩ := by
  have hp : priorWindow checkins = [] := by
    unfold priorWindow
    rw [if_neg (show ¬ 7 < checkins.length by omega)]
  unfold analyze_skin_progress
  rw [if_neg hne, if_pos hp]

theorem bestFold_spec (f : Product → ℚ) :
    ∀ (ps : List Product) (b0 : Option Product) (s0 : ℚ),
      (ps.foldl (stepBest f) (b0, s0) = (b0, s0) ∧ ∀ q ∈ ps, f q ≤ s0) ∨
      (∃ l1 b l2, ps = l1 ++ b :: l2 ∧ s0 < f b ∧ (∀ q ∈ l1, f q < f b) ∧
        (∀ q ∈ ps, f q ≤ f b) ∧ ps.foldl (stepBest f) (b0, s0) = (some b, f b)) := by
  intro ps
  induction ps with
  | nil => intro b0 s0; exact Or.inl ⟨rfl, by simp⟩
  | cons hd tl ih =>
    intro b0 s0
    by_cases hh : s0 < f hd
    · have hstep : stepBest f (b0, s0) hd = (some hd, f hd) := by
        simp [stepBest, hh]
      rcases ih (some hd) (f hd) with ⟨heq, hle⟩ | ⟨l1, b, l2, hsp, hlt, hl1, hall, hfold⟩
      · refine Or.inr ⟨[], hd, tl, by simp, hh, by simp, ?_, ?_⟩
        · intro q hq
          rcases List.mem_cons.mp hq with rfl | hq2
          · exact le_refl _
          · exact hle q hq2
        · simpa [List.foldl_cons, hstep] using heq
      · refine Or.inr ⟨hd :: l1, b, l2, by rw [List.cons_append, ← hsp], lt_trans hh hlt, ?_, ?_, ?_⟩
        · intro q hq
          rcases List.mem_cons.mp hq with rfl | hq2
          · exact hlt
          · exact hl1 q hq2
        · intro q hq
          rcases List.mem_cons.mp hq with rfl | hq2
          · exact le_of_lt hlt
          · exact hall q hq2
        · simpa [List.foldl_cons, hstep] using hfold
    · have hstep : stepBest f (b0, s0) hd = (b0, s0) := by
        simp [stepBest, hh]
      rcases ih b0 s0 with ⟨heq, hle⟩ | ⟨l1, b, l2, hsp, hlt, hl1, hall, hfold⟩
      · refine Or.inl ⟨by simpa [List.foldl_cons, hstep] using heq, ?_⟩
        intro q hq
        rcases List.mem_cons.mp hq with rfl | hq2
        · exact not_lt.mp hh
        · exact hle q hq2
      · refine Or.inr ⟨hd :: l1, b, l2, by rw [List.cons_append, ← hsp], hlt, ?_, ?_, ?_⟩
        · intro q hq
          rcases List.mem_cons.mp hq with rfl | hq2
          · exact lt_of_le_of_lt (not_lt.mp hh) hlt
          · exact hl1 q hq2
        · intro q hq
          rcases List.mem_cons.mp hq with rfl | hq2
          · exact le_of_lt (lt_of_le_of_lt (not_lt.mp hh) hlt)
          · exact hall q hq2
        · simpa [List.foldl_cons, hstep] using hfold

theorem rating_le_scoreProduct (st : String) (cs : List String) (p : Product) :
    p.rating * 5 ≤ scoreProduct st cs p := by
  have h1 : 0 ≤ skinTypeBonus st p := by
    unfold skinTypeBonus
    split
    · split <;> norm_num
    · norm_num
  have h2 : 0 ≤ concernBonus cs p := by
    unfold concernBonus
    split
    · exact mul_nonneg (Nat.cast_nonneg _) (by norm_num)
    · norm_num
  have h3 : 0 ≤ priceBonus p := by
    unfold priceBonus
    split
    · norm_num
    · split <;> norm_num
  unfold scoreProduct
  linarith

theorem scoreProduct_pos (st : String) (cs : List String) (p : Product)
    (h : 0 < p.rating) : 0 < scoreProduct st cs p :=
  lt_of_lt_of_le (mul_pos h (by norm_num)) (rating_le_scoreProduct st cs p)

theorem insertDesc_perm (x : Recommendation) (l : List Recommendation) :
    List.Perm (insertDesc x l) (x :: l) := by
  induction l with
  | nil => simp [insertDesc]
  | cons y ys ih =>
    unfold insertDesc
    split
    · exact List.Perm.refl _
    · exact List.Perm.trans (List.Perm.cons y ih) (List.Perm.swap x y ys)

theorem sortRecsDesc_perm (l : List Recommendation) :
    List.Perm (sortRecsDesc l) l := by
  induction l with
  | nil => simp [sortRecsDesc]
  | cons x xs ih =>
    have h1 : sortRecsDesc (x :: xs) = insertDesc x (sortRecsDesc xs) := rfl
    rw [h1]
    exact List.Perm.trans (insertDesc_perm x (sortRecsDesc xs)) (List.Perm.cons x ih)

theorem pairwise_insertDesc (x : Recommendation) (l : List Recommendation)
    (h : l.Pairwise scoreGE) : (insertDesc x l).Pairwise scoreGE := by
  induction l with
  | nil => simp [insertDesc]
  | cons y ys ih =>
    rcases List.pairwise_cons.mp h with ⟨hy, hys⟩
    unfold insertDesc
    split
    · rename_i hc
      refine List.pairwise_cons.mpr ⟨?_, h⟩
      intro z hz
      rcases List.mem_cons.mp hz with rfl | hz2
      · exact hc
      · exact le_trans (hy z hz2) hc
    · rename_i hc
      refine List.pairwise_cons.mpr ⟨?_, ih hys⟩
      intro z hz
      rcases List.mem_cons.mp ((insertDesc_perm x ys).mem_iff.mp hz) with rfl | hz2
      · exact le_of_lt (not_le.mp hc)
      · exact hy z hz2

theorem pairwise_sortRecsDesc (l : List Recommendation) :
    (sortRecsDesc l).Pairwise scoreGE := by
  induction l with
  | nil => simp [sortRecsDesc]
  | cons x xs ih => exact pairwise_insertDesc x (sortRecsDesc xs) ih

theorem filter_insertDesc (s : ℤ) (x : Recommendation) (l : List Recommendation) :
    (insertDesc x l).filter (fun r => r.match_score == s) =
      (x :: l).filter (fun r => r.match_score == s) := by
  induction l with
  | nil => rfl
  | cons y ys ih =>
    unfold insertDesc
    split
    · rfl
    · rename_i hc
      by_cases hx : x.match_score = s
      · by_cases hy : y.match_score = s
        · exact absurd (le_of_eq (hy.trans hx.symm)) hc
        · simp [List.filter_cons, hx, hy, ih]
      · by_cases hy : y.match_score = s
        · simp [List.filter_cons, hx, hy, ih]
        · simp [List.filter_cons, hx, hy, ih]

theorem filter_sortRecsDesc (s : ℤ) (l : List Recommendation) :
    (sortRecsDesc l).filter (fun r => r.match_score == s) =
      l.filter (fun r => r.match_score == s) := by
  induction l with
  | nil => rfl
  | cons x xs ih =>
    have h1 : sortRecsDesc (x :: xs) = insertDesc x (sortRecsDesc xs) := rfl
    rw [h1, filter_insertDesc]
    simp [List.filter_cons, ih]

theorem mkCatEntry_category (st : String) (cs : List String) (cat : String)
    (ps : List Product) (r : Recommendation)
    (h : mkCatEntry st cs cat ps = some r) : r.category = pyTitle cat := by
  unfold mkCatEntry at h
  split at h
  · injection h with h2
    rw [← h2]
  · exact Option.noConfusion h

theorem categoryRecs_title (st : String) (cs : List String) (r : Recommendation)
    (h : r ∈ categoryRecs st cs) :
    r.category = "Nettoyants" ∨ r.category = "Serums" ∨ r.category = "Hydratants" := by
  rcases List.mem_filterMap.mp h with ⟨cp, hcp, hsome⟩
  have hc := mkCatEntry_category st cs cp.1 cp.2 r hsome
  simp only [products_db, List.mem_cons, List.not_mem_nil, or_false] at hcp
  rcases hcp with rfl | rfl | rfl
  · left; rw [hc]; decide
  · right; left; rw [hc]; decide
  · right; right; rw [hc]; decide

theorem pyRoundInt_ge_floor (q : ℚ) : ⌊q⌋ ≤ pyRoundInt q := by
  unfold pyRoundInt
  split
  · exact le_refl _
  · split
    · omega
    · split <;> omega

theorem pyRoundInt_le_floor_add_one (q : ℚ) : pyRoundInt q ≤ ⌊q⌋ + 1 := by
  unfold pyRoundInt
  split
  · omega
  · split
    · omega
    · split <;> omega

theorem pyRound_one_bounds (q : ℚ) (h1 : 1 ≤ q) (h10 : q ≤ 10) :
    1 ≤ pyRound 1 q ∧ pyRound 1 q ≤ 10 := by
  have hm1 : (10 : ℚ) ≤ q * 10 ^ 1 := by nlinarith
  have hm2 : q * 10 ^ 1 ≤ 100 := by nlinarith
  have hf1 : (10 : ℤ) ≤ ⌊q * 10 ^ 1⌋ := by
    apply Int.le_floor.mpr
    exact_mod_cast hm1
  constructor
  · unfold pyRound
    rw [le_div_iff₀ (by norm_num : (0:ℚ) < 10 ^ 1)]
    have hg := pyRoundInt_ge_floor (q * 10 ^ 1)
    have hg2 : (10 : ℚ) ≤ (pyRoundInt (q * 10 ^ 1) : ℚ) := by
      exact_mod_cast le_trans hf1 hg
    have he : (1 : ℚ) * 10 ^ 1 = 10 := by norm_num
    rw [he]
    exact hg2
  · unfold pyRound
    rw [div_le_iff₀ (by norm_num : (0:ℚ) < 10 ^ 1)]
    have hle : pyRoundInt (q * 10 ^ 1) ≤ 100 := by
      by_cases hcase : ⌊q * 10 ^ 1⌋ ≤ 99
      · have := pyRoundInt_le_floor_add_one (q * 10 ^ 1)
        omega
      · have hup : ⌊q * 10 ^ 1⌋ ≤ 100 := by
          have hfle : (⌊q * 10 ^ 1⌋ : ℚ) ≤ q * 10 ^ 1 := Int.floor_le _
          have : (⌊q * 10 ^ 1⌋ : ℚ) ≤ 100 := le_trans hfle hm2
          exact_mod_cast this
        have hfl : ⌊q * 10 ^ 1⌋ = 100 := by omega
        have hqeq : q * 10 ^ 1 = 100 := by
          have hfle : ((100 : ℤ) : ℚ) ≤ q * 10 ^ 1 := by
            rw [← hfl]
            exact Int.floor_le _
          have h100 : (100 : ℚ) ≤ q * 10 ^ 1 := by exact_mod_cast hfle
          linarith
        rw [hqeq]
        unfold pyRoundInt
        norm_num
    have hle2 : (pyRoundInt (q * 10 ^ 1) : ℚ) ≤ 100 := by exact_mod_cast hle
    have he : (10 : ℚ) * 10 ^ 1 = 100 := by norm_num
    rw [he]
    exact hle2

theorem clamp110_bounds (q : ℚ) : 1 ≤ clamp110 q ∧ clamp110 q ≤ 10 := by
  unfold clamp110
  constructor
  · exact le_max_left _ _
  · exact max_le (by norm_num) (min_le_left _ _)

theorem predictionTable_bounds (pr : ProgressResult) :
    ∀ wp ∈ predictionTable pr,
      1 ≤ wp.2.predicted_score ∧ wp.2.predicted_score ≤ 10 := by
  intro wp hwp
  unfold predictionTable at hwp
  rcases List.mem_map.mp hwp with ⟨w, hw, rfl⟩
  unfold predEntryFor
  rcases clamp110_bounds
      (pr.recent_average.getD 5 + pr.improvement_score.getD 0 * (w : ℚ) * (3/10)) with
    ⟨hb1, hb2⟩
  exact pyRound_one_bounds _ hb1 hb2

theorem selectsBest_core (st : String) (cs : List String) (cat : String)
    (prods : List Product) (hmem : (cat, prods) ∈ products_db)
    (q0 : Product) (hq0 : q0 ∈ prods) (hq0r : 0 < q0.rating)
    (extra : List Recommendation) :
    selectsBest st cs cat prods (sortRecsDesc (categoryRecs st cs ++ extra)) := by
  rcases bestFold_spec (scoreProduct st cs) prods none 0 with
    ⟨heq, hle⟩ | ⟨l1, b, l2, hsp, hlt, hl1, hall, hfold⟩
  · exact absurd (hle q0 hq0) (not_le.mpr (scoreProduct_pos st cs q0 hq0r))
  · refine ⟨l1, b, l2, hsp, hall, hl1, ?_⟩
    apply (sortRecsDesc_perm _).mem_iff.mpr
    apply List.mem_append_left
    apply List.mem_filterMap.mpr
    refine ⟨(cat, prods), hmem, ?_⟩
    show mkCatEntry st cs cat prods = some _
    unfold mkCatEntry bestFold
    rw [hfold]

/-- C1: for every profile and every catalog category, the recommendation
engine selects the single product of that category maximizing the additive
score (+40 skin-type match, +30 per matched concern, rating × 5, +10 if
price < 15 else +5 if price < 25), ties broken in favour of the first
product in catalog order (strict `>` comparison), and emits an entry for it
with `match_score = min(100, floor(score))` and the urgency bucket of the
raw score (`> 80` high, `> 60` medium, else low). -/
theorem rec_C1 (profile : Profile) (checkins : List CheckIn) (photos : List Photo)
    (cat : String) (prods : List Product) (hmem : (cat, prods) ∈ products_db) :
    selectsBest (profile.skin_type.getD "normale") (profile.main_concerns.getD [])
      cat prods (generate_ai_recommendations profile checkins photos) := by
  have hq : ∃ q ∈ prods, 0 < q.rating := by
    have hmem2 := hmem
    simp only [products_db, List.mem_cons, List.not_mem_nil, or_false] at hmem2
    rcases hmem2 with h | h | h
    · injection h with h1 h2
      subst h2
      exact ⟨_, List.mem_cons_self _ _, by show (0:ℚ) < (4.6:ℚ); norm_num⟩
    · injection h with h1 h2
      subst h2
      exact ⟨_, List.mem_cons_self _ _, by show (0:ℚ) < (4.4:ℚ); norm_num⟩
    · injection h with h1 h2
      subst h2
      exact ⟨_, List.mem_cons_self _ _, by show (0:ℚ) < (4.4:ℚ); norm_num⟩
  rcases hq with ⟨q0, hq0, hq0r⟩
  exact selectsBest_core _ _ cat prods hmem q0 hq0 hq0r _

/-- Witness for C1: the serums category and the oily-skin, acne-concern
profile. -/
theorem rec_C1_witness :
    selectsBest "grasse" ["acné"] "serums" serumsProducts
      (generate_ai_recommendations grasseProfile [] []) :=
  rec_C1 grasseProfile [] [] "serums" serumsProducts
    (List.mem_cons_of_mem _ (List.mem_cons_self _ _))

/-- C5: the recommendation list is sorted by `match_score` descending, and
entries with equal `match_score` keep generation order (stable sort): for
every score, the equal-score entries of the output are exactly the
equal-score entries of the pre-sort list (category entries in catalog
order, then the wellness entry if present), in that order. -/
theorem rec_C5 (profile : Profile) (checkins : List CheckIn) (photos : List Photo) :
    (generate_ai_recommendations profile checkins photos).Pairwise scoreGE ∧
    ∀ s : ℤ,
      (generate_ai_recommendations profile checkins photos).filter
          (fun r => r.match_score == s) =
        (preRecs profile).filter (fun r => r.match_score == s) :=
  ⟨pairwise_sortRecsDesc (preRecs profile),
   fun s => filter_sortRecsDesc s (preRecs profile)⟩

/-- C6: a profile with `stress_level > 7` gets the fixed wellness
recommendation (score 85, urgency medium) in addition to the category
entries; with `stress_level ≤ 7` no such entry appears. In particular the
profile (grasse, [acné], stress 9) yields both the wellness entry and a
category entry. -/
theorem rec_C6 (profile : Profile) (checkins : List CheckIn) (photos : List Photo) :
    (7 < profile.stress_level.getD 5 →
      wellnessRec ∈ generate_ai_recommendations profile checkins photos) ∧
    (profile.stress_level.getD 5 ≤ 7 →
      wellnessRec ∉ generate_ai_recommendations profile checkins photos) ∧
    wellnessRec.match_score = 85 ∧ wellnessRec.urgency = "medium" ∧
    wellnessRec ∈ generate_ai_recommendations grasseProfile checkins photos ∧
    ∃ r ∈ generate_ai_recommendations grasseProfile checkins photos,
      r.category ≠ "Bien-être" := by
  have hin : ∀ p : Profile, 7 < p.stress_level.getD 5 →
      wellnessRec ∈ generate_ai_recommendations p checkins photos := by
    intro p hs
    apply (sortRecsDesc_perm (preRecs p)).mem_iff.mpr
    unfold preRecs
    rw [if_pos hs]
    exact List.mem_append_right _ (List.mem_cons_self _ _)
  refine ⟨hin profile, ?_, rfl, rfl, hin grasseProfile (by decide), ?_⟩
  · intro hs hmem
    have h2 := (sortRecsDesc_perm (preRecs profile)).mem_iff.mp hmem
    unfold preRecs at h2
    rw [if_neg (not_lt.mpr hs), List.append_nil] at h2
    rcases categoryRecs_title _ _ _ h2 with h3 | h3 | h3 <;>
      exact absurd h3 (by decide)
  · rcases selectsBest_core "grasse" ["acné"] "nettoyants" nettoyantsProducts
        (List.mem_cons_self _ _) _ (List.mem_cons_self _ _)
        (by show (0:ℚ) < (4.6:ℚ); norm_num)
        (if 7 < (9:ℤ) then [wellnessRec] else []) with
      ⟨l1, b, l2, hsp, hall, hl1, hmem⟩
    exact ⟨_, hmem, by show pyTitle "nettoyants" ≠ "Bien-être"; decide⟩

/-- Witness for C6: the stress-9 profile receives the wellness entry. -/
theorem rec_C6_witness :
    wellnessRec ∈ generate_ai_recommendations grasseProfile [] [] :=
  (rec_C6 grasseProfile [] []).1 (by decide)

/-- C7: every history of length at most 7 yields a sentinel result rather
than an error: `insufficient_data` with confidence 0 when empty, otherwise
`not_enough_data` with confidence 30 (the prior window is empty). -/
theorem rec_C7 (checkins : List CheckIn) (photos : List Photo)
    (h : checkins.length ≤ 7) :
    (checkins = [] → analyze_skin_progress checkins photos =
      ⟨"insufficient_data", 0, none, none, none, none, none⟩) ∧
    (checkins ≠ [] → analyze_skin_progress checkins photos =
      ⟨"not_enough_data", 30, none, none, none, none, none⟩) := by
  constructor
  · intro he
    unfold analyze_skin_progress
    rw [if_pos he]
  · intro hne
    exact analyze_sentinel checkins photos hne h

/-- Witness for C7: the empty history and a two-check-in history. -/
theorem rec_C7_witness :
    analyze_skin_progress ([] : List CheckIn) [] =
      ⟨"insufficient_data", 0, none, none, none, none, none⟩ ∧
    analyze_skin_progress histC7w [] =
      ⟨"not_enough_data", 30, none, none, none, none, none⟩ :=
  ⟨(rec_C7 [] [] (by decide)).1 rfl,
   (rec_C7 histC7w [] (by decide)).2 (by decide)⟩

/-- C8: with fewer than 3 check-ins the predictor returns the
insufficient-data result (a message, no `predictions` key, no horizons) as
an ordinary successful value, not a raised fault. -/
theorem rec_C8 (profile : Profile) (checkins : List CheckIn)
    (h : checkins.length < 3) :
    predict_future_results profile checkins =
      ⟨some "Pas assez de données pour une prédiction fiable",
       none, none, none, none⟩ ∧
    (predict_future_results profile checkins).predictions = none := by
  have h1 : predict_future_results profile checkins =
      ⟨some "Pas assez de données pour une prédiction fiable",
       none, none, none, none⟩ := by
    unfold predict_future_results
    rw [if_pos h]
  exact ⟨h1, by rw [h1]⟩

/-- Witness for C8: the empty history. -/
theorem rec_C8_witness :
    predict_future_results defaultProfile [] =
      ⟨some "Pas assez de données pour une prédiction fiable",
       none, none, none, none⟩ ∧
    (predict_future_results defaultProfile []).predictions = none :=
  rec_C8 defaultProfile [] (by decide)

/-- C9: the recommendation list depends only on the profile's `skin_type`,
`main_concerns` and `stress_level` — not on the check-in history, the
photos, or any other profile field — hence is deterministic. -/
theorem rec_C9 (p1 p2 : Profile) (c1 c2 : List CheckIn) (ph1 ph2 : List Photo)
    (h1 : p1.skin_type = p2.skin_type) (h2 : p1.main_concerns = p2.main_concerns)
    (h3 : p1.stress_level = p2.stress_level) :
    generate_ai_recommendations p1 c1 ph1 = generate_ai_recommendations p2 c2 ph2 := by
  unfold generate_ai_recommendations preRecs
  rw [h1, h2, h3]

/-- Witness for C9: two profiles differing in `user_id` and `created_at`,
with different histories and photo lists. -/
theorem rec_C9_witness :
    generate_ai_recommendations profC9a histC9c [] =
      generate_ai_recommendations profC9b [] [0] :=
  rec_C9 profC9a profC9b histC9c [] [] [0] rfl rfl rfl

/-- C2: for every history longer than 7, the analyzer classifies the
improvement (recent-window average minus prior-window average) by the
thresholds 1, 0.3, −0.3 with confidences min(90, 70+2n), min(80, 60+2n),
min(75, 50+2n), min(85, 65+2n); in particular prior average 5 and recent
average 6.5 over 10 check-ins yield `significant_improvement` with
confidence 90. -/
theorem rec_C2 (checkins : List CheckIn) (photos : List Photo)
    (h : 7 < checkins.length) :
    (1 < avgCond (recentWindow checkins) - avgCond (priorWindow checkins) →
      (analyze_skin_progress checkins photos).trend = "significant_improvement" ∧
      (analyze_skin_progress checkins photos).confidence =
        min 90 (70 + (checkins.length : ℤ) * 2)) ∧
    (avgCond (recentWindow checkins) - avgCond (priorWindow checkins) ≤ 1 →
      3/10 < avgCond (recentWindow checkins) - avgCond (priorWindow checkins) →
      (analyze_skin_progress checkins photos).trend = "moderate_improvement" ∧
      (analyze_skin_progress checkins photos).confidence =
        min 80 (60 + (checkins.length : ℤ) * 2)) ∧
    (avgCond (recentWindow checkins) - avgCond (priorWindow checkins) ≤ 3/10 →
      -(3/10) < avgCond (recentWindow checkins) - avgCond (priorWindow checkins) →
      (analyze_skin_progress checkins photos).trend = "stable" ∧
      (analyze_skin_progress checkins photos).confidence =
        min 75 (50 + (checkins.length : ℤ) * 2)) ∧
    (avgCond (recentWindow checkins) - avgCond (priorWindow checkins) ≤ -(3/10) →
      (analyze_skin_progress checkins photos).trend = "declining" ∧
      (analyze_skin_progress checkins photos).confidence =
        min 85 (65 + (checkins.length : ℤ) * 2)) ∧
    (avgCond (priorWindow checkins) = 5 → avgCond (recentWindow checkins) = 13/2 →
      checkins.length = 10 →
      (analyze_skin_progress checkins photos).trend = "significant_improvement" ∧
      (analyze_skin_progress checkins photos).confidence = 90) := by
  have hne : checkins ≠ [] := by
    intro hE
    rw [hE] at h
    simp at h
  have hp : priorWindow checkins ≠ [] := priorWindow_ne_nil checkins h
  refine ⟨?_, ?_, ?_, ?_, ?_⟩
  · intro h1
    unfold analyze_skin_progress
    rw [if_neg hne, if_neg hp, if_pos h1]
    exact ⟨rfl, rfl⟩
  · intro hle h2
    unfold analyze_skin_progress
    rw [if_neg hne, if_neg hp, if_neg (not_lt.mpr hle), if_pos h2]
    exact ⟨rfl, rfl⟩
  · intro hle h3
    unfold analyze_skin_progress
    rw [if_neg hne, if_neg hp,
      if_neg (not_lt.mpr (le_trans hle (by norm_num))),
      if_neg (not_lt.mpr hle), if_pos h3]
    exact ⟨rfl, rfl⟩
  · intro hle
    unfold analyze_skin_progress
    rw [if_neg hne, if_neg hp,
      if_neg (not_lt.mpr (le_trans hle (by norm_num))),
      if_neg (not_lt.mpr (le_trans hle (by norm_num))),
      if_neg (not_lt.mpr hle)]
    exact ⟨rfl, rfl⟩
  · intro e1 e2 e3
    have h1 : 1 < avgCond (recentWindow checkins) - avgCond (priorWindow checkins) := by
      rw [e1, e2]
      norm_num
    unfold analyze_skin_progress
    rw [if_neg hne, if_neg hp, if_pos h1]
    refine ⟨rfl, ?_⟩
    show min 90 (70 + (checkins.length : ℤ) * 2) = 90
    rw [e3]
    norm_num

/-- Witness for C2: ten check-ins, three prior at 5 and seven recent at
6.5. -/
theorem rec_C2_witness :
    (analyze_skin_progress histC2w []).trend = "significant_improvement" ∧
    (analyze_skin_progress histC2w []).confidence = 90 :=
  (rec_C2 histC2w [] (by decide)).2.2.2.2
    (by
      have hs : sortByCreated histC2w = histC2w := by
        simp [histC2w, sortByCreated, insertByCreated]
      have hpw : priorWindow histC2w = [⟨5, 5, 8, 0⟩, ⟨5, 5, 8, 1⟩, ⟨5, 5, 8, 2⟩] := by
        unfold priorWindow
        rw [hs]
        simp [histC2w]
      rw [hpw]
      simp [avgCond]
      norm_num)
    (by
      have hs : sortByCreated histC2w = histC2w := by
        simp [histC2w, sortByCreated, insertByCreated]
      have hrw : recentWindow histC2w =
          [⟨13/2, 5, 8, 3⟩, ⟨13/2, 5, 8, 4⟩, ⟨13/2, 5, 8, 5⟩, ⟨13/2, 5, 8, 6⟩,
           ⟨13/2, 5, 8, 7⟩, ⟨13/2, 5, 8, 8⟩, ⟨13/2, 5, 8, 9⟩] := by
        unfold recentWindow
        rw [hs]
        simp [histC2w]
      rw [hrw]
      simp [avgCond]
      norm_num)
    (by decide)

/-- C3: with at least 3 check-ins the predictor returns exactly the four
horizons 2, 4, 8, 12 weeks, each entry carrying
`predicted_score = round(clamp(baseline + rate*weeks*0.3, 1, 10), 1)`
(hence always in [1, 10]), `confidence = max(30, analyzer_confidence −
weeks*5)`, and the description bucket of the clamped score, where baseline
and rate are the analyzer's `recent_average` and `improvement_score` (read
with defaults 5 and 0). -/
theorem rec_C3 (profile : Profile) (checkins : List CheckIn)
    (h : 3 ≤ checkins.length) :
    (predict_future_results profile checkins).predictions =
      some (predictionTable (analyze_skin_progress checkins [])) ∧
    ∀ wp ∈ ((predict_future_results profile checkins).predictions.getD []),
      1 ≤ wp.2.predicted_score ∧ wp.2.predicted_score ≤ 10 := by
  have hn : ¬ checkins.length < 3 := by omega
  have hpred : (predict_future_results profile checkins).predictions =
      some (predictionTable (analyze_skin_progress checkins [])) := by
    unfold predict_future_results
    rw [if_neg hn]
  refine ⟨hpred, ?_⟩
  rw [hpred]
  exact predictionTable_bounds _

/-- Witness for C3: a four-check-in history. -/
theorem rec_C3_witness :
    (predict_future_results defaultProfile histC3w).predictions =
      some (predictionTable (analyze_skin_progress histC3w [])) ∧
    ∀ wp ∈ ((predict_future_results defaultProfile histC3w).predictions.getD []),
      1 ≤ wp.2.predicted_score ∧ wp.2.predicted_score ≤ 10 :=
  rec_C3 defaultProfile histC3w (by decide)

/-- Counterexample for C4: the claim says the `trend_direction` label uses
the same ±0.3 threshold as the analyzer (improvement iff rate > 0.3), but on
a history whose rounded rate is 0.14 — inside (0, 0.3], where the claim
mandates the stable label — the predictor reports the improvement label
"amélioration". -/
theorem rec_C4_cex :
    (analyze_skin_progress histC4x []).improvement_score = some (7/50) ∧
    (0 : ℚ) < 7/50 ∧ (7/50 : ℚ) ≤ 3/10 ∧
    (predict_future_results defaultProfile histC4x).trend_direction =
      some "amélioration" ∧
    "amélioration" ≠ "stable" := by
  have hs : sortByCreated histC4x = histC4x := by
    simp [histC4x, sortByCreated, insertByCreated]
  have hpw : priorWindow histC4x = [⟨5, 5, 8, 0⟩] := by
    unfold priorWindow
    rw [hs]
    simp [histC4x]
  have hrw : recentWindow histC4x =
      [⟨5, 5, 8, 1⟩, ⟨5, 5, 8, 2⟩, ⟨5, 5, 8, 3⟩, ⟨5, 5, 8, 4⟩, ⟨5, 5, 8, 5⟩,
       ⟨5, 5, 8, 6⟩, ⟨6, 5, 8, 7⟩] := by
    unfold recentWindow
    rw [hs]
    simp [histC4x]
  have hpa : avgCond (priorWindow histC4x) = 5 := by
    rw [hpw]
    simp [avgCond]
  have hra : avgCond (recentWindow histC4x) = 36/7 := by
    rw [hrw]
    simp [avgCond]
    norm_num
  have himp : avgCond (recentWindow histC4x) - avgCond (priorWindow histC4x) = 1/7 := by
    rw [hpa, hra]
    norm_num
  have hne : histC4x ≠ [] := by simp [histC4x]
  have hpne : priorWindow histC4x ≠ [] := by
    rw [hpw]
    simp
  have hfl : ⌊(1/7 : ℚ) * 10 ^ 2⌋ = 14 := by
    rw [Int.floor_eq_iff]
    norm_num
  have hround : pyRound 2 (1/7 : ℚ) = 7/50 := by
    unfold pyRound pyRoundInt
    rw [hfl]
    norm_num
  have hanalyze : (analyze_skin_progress histC4x []).improvement_score = some (7/50) := by
    unfold analyze_skin_progress
    rw [if_neg hne, if_neg hpne,
      if_neg (by rw [himp]; norm_num),
      if_neg (by rw [himp]; norm_num),
      if_pos (by rw [himp]; norm_num)]
    show some (pyRound 2 (avgCond (recentWindow histC4x) - avgCond (priorWindow histC4x))) = _
    rw [himp, hround]
  have hpredict : (predict_future_results defaultProfile histC4x).trend_direction =
      some "amélioration" := by
    have hn : ¬ histC4x.length < 3 := by decide
    unfold predict_future_results
    rw [if_neg hn]
    show some (if 0 < (analyze_skin_progress histC4x []).improvement_score.getD 0
        then "amélioration"
        else if -(3/10) < (analyze_skin_progress histC4x []).improvement_score.getD 0
        then "stable" else "déclin") = some "amélioration"
    rw [hanalyze]
    norm_num
  exact ⟨hanalyze, by norm_num, by norm_num, hpredict, by decide⟩

/-- C4 amended: the predictor's `trend_direction` is the improvement label
iff the rate is > 0 (not > 0.3 as claimed), the stable label iff
0 ≥ rate > −0.3, and the decline label otherwise; `reliability` is high for
more than 10 check-ins, medium for more than 5, else low. -/
theorem rec_C4 (profile : Profile) (checkins : List CheckIn)
    (h : 3 ≤ checkins.length) :
    (predict_future_results profile checkins).trend_direction =
      some (if 0 < (analyze_skin_progress checkins []).improvement_score.getD 0 then
          "amélioration"
        else if -(3/10) < (analyze_skin_progress checkins []).improvement_score.getD 0 then
          "stable"
        else "déclin") ∧
    (predict_future_results profile checkins).reliability =
      some (if 10 < checkins.length then "high"
        else if 5 < checkins.length then "medium" else "low") := by
  have hn : ¬ checkins.length < 3 := by omega
  unfold predict_future_results
  rw [if_neg hn]
  exact ⟨rfl, rfl⟩

/-- Witness for C4 (amended): the eight-check-in history with rate 0.14. -/
theorem rec_C4_witness :
    (predict_future_results defaultProfile histC4x).trend_direction =
      some (if 0 < (analyze_skin_progress histC4x []).improvement_score.getD 0 then
          "amélioration"
        else if -(3/10) < (analyze_skin_progress histC4x []).improvement_score.getD 0 then
          "stable"
        else "déclin") ∧
    (predict_future_results defaultProfile histC4x).reliability =
      some (if 10 < histC4x.length then "high"
        else if 5 < histC4x.length then "medium" else "low") :=
  rec_C4 defaultProfile histC4x (by decide)

/-- C10: with 3 to 7 check-ins the analyzer returns the `not_enough_data`
sentinel (no `recent_average` or `improvement_score` fields), so the
predictor falls back to baseline 5 and rate 0: `current_score` is 5,
`trend_direction` is the stable label, and every one of the four horizons
gets predicted score 5 and confidence 30. -/
theorem rec_C10 (profile : Profile) (checkins : List CheckIn)
    (h3 : 3 ≤ checkins.length) (h7 : checkins.length ≤ 7) :
    analyze_skin_progress checkins [] =
      ⟨"not_enough_data", 30, none, none, none, none, none⟩ ∧
    (predict_future_results profile checkins).current_score = some 5 ∧
    (predict_future_results profile checkins).trend_direction = some "stable" ∧
    (predict_future_results profile checkins).predictions =
      some [(2, ⟨5, 30, get_prediction_description 5⟩),
            (4, ⟨5, 30, get_prediction_description 5⟩),
            (8, ⟨5, 30, get_prediction_description 5⟩),
            (12, ⟨5, 30, get_prediction_description 5⟩)] := by
  have hne : checkins ≠ [] := by
    intro hE
    rw [hE] at h3
    simp at h3
  have hs := analyze_sentinel checkins [] hne h7
  have hn : ¬ checkins.length < 3 := by omega
  have hround5 : pyRound 1 (5 : ℚ) = 5 := by
    unfold pyRound pyRoundInt
    norm_num
  have hclamp5 : clamp110 (5 : ℚ) = 5 := by
    unfold clamp110
    rw [min_eq_right (by norm_num), max_eq_right (by norm_num)]
  have htab : predictionTable ⟨"not_enough_data", 30, none, none, none, none, none⟩ =
      [(2, ⟨5, 30, get_prediction_description 5⟩),
       (4, ⟨5, 30, get_prediction_description 5⟩),
       (8, ⟨5, 30, get_prediction_description 5⟩),
       (12, ⟨5, 30, get_prediction_description 5⟩)] := by
    unfold predictionTable predEntryFor
    simp only [Option.getD_none, Option.getD_some, List.map]
    norm_num [hclamp5, hround5, max_eq_left]
  refine ⟨hs, ?_, ?_, ?_⟩
  · unfold predict_future_results
    rw [if_neg hn, hs]
    rfl
  · unfold predict_future_results
    rw [if_neg hn, hs]
    show some (if 0 < ((none : Option ℚ).getD 0) then "amélioration"
      else if -(3/10) < ((none : Option ℚ).getD 0) then "stable" else "déclin") =
        some "stable"
    rw [Option.getD_none]
    norm_num
  · unfold predict_future_results
    rw [if_neg hn, hs]
    show some (predictionTable ⟨"not_enough_data", 30, none, none, none, none, none⟩) = _
    rw [htab]

/-- Witness for C10: a three-check-in history. -/
theorem rec_C10_witness :
    analyze_skin_progress histC10w [] =
      ⟨"not_enough_data", 30, none, none, none, none, none⟩ ∧
    (predict_future_results defaultProfile histC10w).current_score = some 5 ∧
    (predict_future_results defaultProfile histC10w).trend_direction = some "stable" ∧
    (predict_future_results defaultProfile histC10w).predictions =
      some [(2, ⟨5, 30, get_prediction_description 5⟩),
            (4, ⟨5, 30, get_prediction_description 5⟩),
            (8, ⟨5, 30, get_prediction_description 5⟩),
            (12, ⟨5, 30, get_prediction_description 5⟩)] :=
  rec_C10 defaultProfile histC10w (by decide) (by decide)
